import Mathlib

/-!
Verification development for the blossom-bot invoice service (src/app.py).

The Python module is shallowly embedded below.  JSON values carried by the
request payload are modelled by `JVal`; Python numbers (ints and floats) are
modelled by rationals, so non-finite float literals ("inf", "nan") and the
shortest-round-trip display of floats are outside the model.  The system
clock, the filesystem probe for the logo file and the Telegram HTTP exchange
are inputs of the embedded functions.  Fallible Python code (code that can
raise) is embedded with `Option`/`Except`.
-/

namespace Blossom

/-- Decimal digit character: `digitChar d` is the character for digit `d < 10`. -/
def digitChar (d : ℕ) : Char := Char.ofNat (48 + d)

/-- Fuel-bounded least-significant-first decimal digits (structural, so it
evaluates inside the kernel). -/
def digitsRevAux : ℕ → ℕ → List ℕ
  | 0, _ => []
  | fuel + 1, n => if n = 0 then [] else n % 10 :: digitsRevAux fuel (n / 10)

/-- Least-significant-first decimal digits of a natural number. -/
def natDigits (n : ℕ) : List ℕ := digitsRevAux n n

/-- Base-10 logarithm (number of decimal digits minus one). -/
def natLog10 (n : ℕ) : ℕ := (natDigits n).length - 1

/-- Most-significant-first decimal digits of a natural number (empty for 0). -/
def digitsMSB (m : ℕ) : List Char := ((natDigits m).map digitChar).reverse

/-- Decimal numeral of a natural number, as produced by Python `str(int)`. -/
def natDecimal (n : ℕ) : String :=
  if n = 0 then "0" else String.mk (digitsMSB n)

/-- Decimal numeral of an integer (with leading minus sign when negative). -/
def intDecimal (i : ℤ) : String :=
  if i < 0 then "-" ++ natDecimal i.natAbs else natDecimal i.natAbs

/-- `leadsWith p l` is true when the pattern `p` is an initial segment of `l`. -/
def leadsWith : List Char → List Char → Bool
  | [], _ => true
  | _ :: _, [] => false
  | p :: ps, c :: cs => p == c && leadsWith ps cs

/-- `containsSub pat l` is true when `pat` occurs contiguously inside `l`. -/
def containsSub (pat : List Char) : List Char → Bool
  | [] => pat.isEmpty
  | c :: cs => leadsWith pat (c :: cs) || containsSub pat cs

/-- Number of (possibly overlapping) occurrences of `pat` inside a list. -/
def countSub (pat : List Char) : List Char → ℕ
  | [] => 0
  | c :: cs => (if leadsWith pat (c :: cs) then 1 else 0) + countSub pat cs

/-- Python `"\n".join` on a list of strings. -/
def joinNl : List String → String
  | [] => ""
  | [r] => r
  | r :: rs => r ++ "\n" ++ joinNl rs

/-- JSON-like Python values (numbers modelled by rationals). -/
inductive JVal where
  | null
  | bool (b : Bool)
  | num (q : ℚ)
  | str (s : String)
  | arr (xs : List JVal)
  | obj (fields : List (String × JVal))

/-- Python truthiness of a JSON value (`bool(v)`). -/
def truthy : JVal → Bool
  | .null => false
  | .bool b => b
  | .num q => q != 0
  | .str s => s != ""
  | .arr xs => !xs.isEmpty
  | .obj fs => !fs.isEmpty

/-- First binding of key `k` in a Python dict, modelled as an association list. -/
def lookupField (k : String) : List (String × JVal) → Option JVal
  | [] => none
  | (k2, v) :: rest => if k2 = k then some v else lookupField k rest

/-- Python `d.get(k)` (absent key gives `None`). -/
def dget (fs : List (String × JVal)) (k : String) : JVal :=
  (lookupField k fs).getD .null

/-- Python `d.get(k, default)`. -/
def dgetD (fs : List (String × JVal)) (k : String) (d : JVal) : JVal :=
  (lookupField k fs).getD d

/-- Python `a or b`. -/
def pyOr (a b : JVal) : JVal := if truthy a then a else b

/-- Python `str()` of a JSON value.  Strings are returned verbatim; the
decimal display of floats and the repr of containers are simplified, which no
claim depends on. -/
def pyStr : JVal → String
  | .null => "None"
  | .bool b => if b then "True" else "False"
  | .num q => if q.den = 1 then intDecimal q.num
              else intDecimal q.num ++ "/" ++ natDecimal q.den
  | .str s => s
  | .arr _ => "[...]"
  | .obj _ => "\x7b...\x7d"

/-- Characters stripped by Python `str.strip()` / matched by the regex `\s`
(ASCII fragment; non-ASCII whitespace is removed later by the charset filter
anyway). -/
def isPySpace (c : Char) : Bool :=
  c == ' ' || c == '\t' || c == '\n' || c == '\r' || c == '\x0b' || c == '\x0c'

/-- Python `str.strip()`. -/
def pyStrip (l : List Char) : List Char :=
  ((l.dropWhile isPySpace).reverse.dropWhile isPySpace).reverse

/-- `re.sub(r"\s+", "_", s)`: each maximal whitespace run becomes one `_`.
The boolean argument records whether the previous character was whitespace. -/
def collapseWsAux : Bool → List Char → List Char
  | _, [] => []
  | prev, c :: cs =>
    if isPySpace c then
      (if prev then collapseWsAux true cs else '_' :: collapseWsAux true cs)
    else c :: collapseWsAux false cs

/-- Membership in the safe filename charset `[a-z0-9_-]`. -/
def safeChar (c : Char) : Bool :=
  (decide (97 ≤ c.toNat) && decide (c.toNat ≤ 122)) ||
  (decide (48 ≤ c.toNat) && decide (c.toNat ≤ 57)) ||
  c.toNat == 95 || c.toNat == 45

/-- `src/app.py` `_safe_filename`: strip, lowercase, collapse whitespace to
underscores, drop characters outside `[a-z0-9_-]`, truncate to 60, and fall
back to `"file"` when empty.  Lowercasing is modelled on ASCII letters; other
letters are removed by the charset filter exactly as in the source. -/
def _safe_filename (s : String) : String :=
  let l := (pyStrip s.data).map Char.toLower
  let l2 := collapseWsAux false l
  let l3 := l2.filter safeChar
  let l4 := l3.take 60
  if l4.isEmpty then "file" else String.mk l4

/-- `html.escape` on one character (quote=True: also escapes `"` and the
apostrophe). -/
def escChar (c : Char) : List Char :=
  if c = '&' then ("&amp;").data
  else if c = '<' then ("&lt;").data
  else if c = '>' then ("&gt;").data
  else if c = Char.ofNat 34 then ("&quot;").data
  else if c = Char.ofNat 39 then ("&#x27;").data
  else [c]

/-- `html.escape` over a character list. -/
def escList : List Char → List Char
  | [] => []
  | c :: cs => escChar c ++ escList cs

/-- `html.escape` on a string. -/
def htmlEscape (s : String) : String := String.mk (escList s.data)

/-- `build_invoice_html.esc`: `html.escape("" if v is None else str(v))`. -/
def esc (v : JVal) : String :=
  htmlEscape (match v with | .null => "" | w => pyStr w)

/-- Digit-run value: `digitsVal ds` folds decimal digit characters. -/
def digitsVal (ds : List Char) : ℕ :=
  ds.foldl (fun a c => 10 * a + (c.toNat - 48)) 0

/-- Split a leading run of ASCII digits off a character list. -/
def splitDigits : List Char → List Char × List Char
  | [] => ([], [])
  | c :: cs =>
    if c.isDigit then
      let p := splitDigits cs
      (c :: p.1, p.2)
    else ([], c :: cs)

/-- Optional sign at the head of a numeric literal. -/
def parseSign : List Char → ℤ × List Char
  | '+' :: cs => (1, cs)
  | '-' :: cs => (-1, cs)
  | cs => (1, cs)

/-- Exponent suffix of a Python float literal (empty input means exponent 0). -/
def parseExpPart : List Char → Option ℤ
  | [] => some 0
  | c :: cs =>
    if c = 'e' ∨ c = 'E' then
      let p := parseSign cs
      let d := splitDigits p.2
      if d.1.isEmpty || !d.2.isEmpty then none
      else some (p.1 * (digitsVal d.1 : ℤ))
    else none

/-- Mantissa of a Python float literal: digits with an optional single point,
at least one digit in total; returns its value and the unconsumed suffix. -/
def parseMantissa (l : List Char) : Option (ℚ × List Char) :=
  let ip := splitDigits l
  match ip.2 with
  | '.' :: r2 =>
    let fp := splitDigits r2
    if ip.1.isEmpty && fp.1.isEmpty then none
    else some ((digitsVal ip.1 : ℚ) + (digitsVal fp.1 : ℚ) / (10 : ℚ) ^ fp.1.length, fp.2)
  | _ => if ip.1.isEmpty then none else some ((digitsVal ip.1 : ℚ), ip.2)

/-- Python `float(str)`: strip whitespace, optional sign, decimal mantissa,
optional exponent.  Non-finite literals ("inf", "nan") and digit-group
underscores are outside the rational model and are mapped to `none`. -/
def pyFloatOfString (s : String) : Option ℚ :=
  let l := pyStrip s.data
  let sg := parseSign l
  match parseMantissa sg.2 with
  | none => none
  | some m =>
    match parseExpPart m.2 with
    | none => none
    | some e => some ((sg.1 : ℚ) * m.1 * (10 : ℚ) ^ e)

/-- Python `float(v)` on a JSON value: `some` on success, `none` when the
call raises (`TypeError`/`ValueError`). -/
def pyFloat : JVal → Option ℚ
  | .num q => some q
  | .bool b => some (if b then 1 else 0)
  | .str s => pyFloatOfString s
  | _ => none

/-- `try: float(v) except Exception: 0.0` — the coercion-with-default used for
`quantity`, `price` and `total_sum`. -/
def tryFloat (v : JVal) : ℚ := (pyFloat v).getD 0

/-- Round to nearest integer, ties to even (CPython's rounding of display
values). -/
def roundHalfEven (q : ℚ) : ℤ :=
  let f := ⌊q⌋
  let r := q - (f : ℚ)
  if r < 1/2 then f
  else if 1/2 < r then f + 1
  else if f % 2 = 0 then f else f + 1

/-- Fuel-bounded search for the least `k ≥ start` with `a * 10 ^ k ≥ 1`. -/
def negExpSearch : ℕ → ℚ → ℕ → ℕ
  | 0, _, k => k
  | fuel + 1, a, k => if 1 ≤ a * (10 : ℚ) ^ k then k else negExpSearch fuel a (k + 1)

/-- Decimal exponent of a positive rational: the `e` with `10^e ≤ a < 10^(e+1)`. -/
def decExpPos (a : ℚ) : ℤ :=
  if 1 ≤ a then (natLog10 (⌊a⌋).toNat : ℤ)
  else - (negExpSearch (natLog10 a.den + 2) a 1 : ℤ)

/-- Remove trailing `'0'` characters. -/
def stripZeros (l : List Char) : List Char :=
  (l.reverse.dropWhile (fun c => c == '0')).reverse

/-- Fixed-point rendering of the `%g` format: `m` holds the six significant
digits, `e` the decimal exponent; trailing fractional zeros are stripped. -/
def fixedForm (m : ℕ) (e : ℤ) : String :=
  if 0 ≤ e then
    String.mk ((digitsMSB m).take (e.toNat + 1)) ++
      (if (stripZeros ((digitsMSB m).drop (e.toNat + 1))).isEmpty then ""
       else "." ++ String.mk (stripZeros ((digitsMSB m).drop (e.toNat + 1))))
  else
    "0." ++ String.mk (stripZeros (List.replicate (e.natAbs - 1) '0' ++ digitsMSB m))

/-- Scientific rendering of the `%g` format (two-digit minimum exponent). -/
def expForm (m : ℕ) (e : ℤ) : String :=
  match digitsMSB m with
  | [] => "0"
  | d :: rest =>
    let fr := stripZeros rest
    String.mk [d] ++ (if fr.isEmpty then "" else "." ++ String.mk fr) ++
      "e" ++ (if e < 0 then "-" else "+") ++
      (if e.natAbs < 10 then "0" else "") ++ natDecimal e.natAbs

/-- Python `f"{x:g}"`: general floating format with six significant digits —
fixed notation for decimal exponents in `[-4, 6)`, scientific otherwise,
trailing zeros and a trailing decimal point removed. -/
def formatG (q : ℚ) : String :=
  if q = 0 then "0"
  else
    let sign : String := if q < 0 then "-" else ""
    let a := |q|
    let e0 := decExpPos a
    let m0 := roundHalfEven (a * (10 : ℚ) ^ (5 - e0))
    let m := if m0 = 10 ^ 6 then (10 : ℤ) ^ 5 else m0
    let e := if m0 = 10 ^ 6 then e0 + 1 else e0
    if -4 ≤ e ∧ e < 6 then sign ++ fixedForm m.toNat e
    else sign ++ expForm m.toNat e

/-- Exactly two decimal digits (zero padded). -/
def twoDigits (r : ℕ) : String :=
  String.mk [digitChar (r / 10 % 10), digitChar (r % 10)]

/-- Python `f"{x:.2f}"`: fixed-point with exactly two fractional digits. -/
def format2f (q : ℚ) : String :=
  let n := roundHalfEven (q * 100)
  let sign : String := if q < 0 then "-" else ""
  let a := n.natAbs
  sign ++ natDecimal (a / 100) ++ "." ++ twoDigits (a % 100)

/-- `build_invoice_html.num_cell`: a fixed-width right-aligned numeric span. -/
def num_cell (value : String) (width_ch : ℕ) : String :=
  "<span class=\"numbox\" style=\"width:" ++ natDecimal width_ch ++ "ch\">" ++
    esc (.str value) ++ "</span>"

/-- One item row of the table body, with the already-coerced numbers. -/
def rowHtml (idx : ℕ) (name : String) (qty price amount : ℚ) : String :=
  "
          <tr>
            <td class=\"td-idx\">" ++ num_cell (natDecimal idx) 3 ++ "</td>
            <td class=\"td-name\">" ++ name ++ "</td>
            <td class=\"td-qty\">" ++ num_cell (formatG qty) 6 ++ "</td>
            <td class=\"td-price\">" ++ num_cell (format2f price) 10 ++ "</td>
            <td class=\"td-sum\">" ++ num_cell (format2f amount) 10 ++ "</td>
          </tr>
        "

/-- The body of the `for idx, item in enumerate(items or [], start=1)` loop:
`item.get` raises `AttributeError` on a non-dict item (`none`); the numeric
coercions of `quantity` and `price` fall back to `0.0` and never raise. -/
def build_row (idx : ℕ) (item : JVal) : Option String :=
  match item with
  | .obj fs =>
    let name := esc (dgetD fs "name" (.str ""))
    let qty := tryFloat (dgetD fs "quantity" (.num 0))
    let price := tryFloat (dgetD fs "price" (.num 0))
    let amount := price * qty
    some (rowHtml idx name qty price amount)
  | _ => none

/-- The accumulated `rows` list; `none` when some item aborted the loop. -/
def build_rows : ℕ → List JVal → Option (List String)
  | _, [] => some []
  | idx, it :: rest =>
    match build_row idx it with
    | none => none
    | some row =>
      match build_rows (idx + 1) rest with
      | none => none
      | some rows => some (row :: rows)

/-- The placeholder table body used when `rows` is empty. -/
def placeholderRow : String := "
      <tr><td colspan=\"5\" class=\"muted\">Товары не указаны</td></tr>
    "

/-- Opening literal of the logo `img` tag. -/
def imgOpen : String := "<img class=\"logo\" src=\""

/-- Closing literal of the logo `img` tag. -/
def imgClose : String := "\" alt=\"logo\">"

/-- Template text up to the `logo_html` interpolation (head, CSS, header
opening).  Literal braces of the CSS are written as `\x7b`/`\x7d`. -/
def tpl0 : String := "
    <html>
      <head>
        <meta charset=\"utf-8\">
        <style>
          @page \x7b size: A5; margin: 10mm 12mm 12mm 12mm; \x7d

          body \x7b
            font-family: DejaVu Sans, Arial, sans-serif;
            color: #1a1a1a;
          \x7d

          .header \x7b
            position: relative;
            border-bottom: 3px solid #2c3e50;
            padding: 3mm 0 2mm 0;
            margin-bottom: 12px;
            min-height: 18mm;
          \x7d

          .logo \x7b
            position: absolute;
            left: 0;
            top: -6mm;
            width: 24mm;
            height: auto;
          \x7d

          .header-date \x7b
            position: absolute;
            right: 0;
            top: 0;
            font-size: 11px;
            color: #666;
            white-space: nowrap;
          \x7d

          .header-center \x7b
            position: absolute;
            left: 50%;
            top: 0;
            transform: translateX(-50%);
            text-align: center;
            width: 120mm;
          \x7d

          .title \x7b
            margin: 0;
            font-size: 22px;
            font-weight: 800;
            letter-spacing: -0.4px;
            color: #2c3e50;
          \x7d

          .order-id \x7b
            margin-top: 5px;
            font-size: 12px;
            color: #666;
          \x7d

          .header-spacer \x7b
            height: 14mm;
          \x7d

          .sender \x7b
            margin: 10px 0 14px 0;
            border: 1px solid #d8e6f2;
            background: #eef6ff;
            border-radius: 10px;
            padding: 10px 12px;
          \x7d
          .sender .label \x7b
            font-size: 10px;
            font-weight: 800;
            text-transform: uppercase;
            letter-spacing: 0.6px;
            color: #2c3e50;
            margin-bottom: 4px;
          \x7d
          .sender .value \x7b
            font-size: 13px;
            font-weight: 900;
            color: #1a1a1a;
          \x7d
          .sender .phone \x7b
            font-weight: 800;
            color: #2c3e50;
          \x7d

          .meta-info \x7b
            display: grid;
            grid-template-columns: 1fr 1fr;
            gap: 14px;
            margin-bottom: 14px;
            font-size: 11px;
          \x7d
          .meta-section \x7b
            border: 1px solid #e0e0e0;
            border-radius: 10px;
            padding: 10px 12px;
            background: #f9f9f9;
          \x7d
          .meta-section .label \x7b
            font-weight: 800;
            color: #555;
            font-size: 10px;
            text-transform: uppercase;
            letter-spacing: 0.5px;
            margin-bottom: 4px;
          \x7d
          .meta-section .value \x7b
            color: #1a1a1a;
            line-height: 1.4;
            word-break: break-word;
          \x7d

          .section-title \x7b
            font-weight: 900;
            font-size: 12px;
            color: #2c3e50;
            margin: 12px 0 8px 0;
            text-transform: uppercase;
            letter-spacing: 0.5px;
          \x7d

          table.items \x7b
            width: 100%;
            border-collapse: collapse;
            table-layout: fixed;
          \x7d
          col.cw-idx \x7b width: 12mm; \x7d
          col.cw-qty \x7b width: 24mm; \x7d
          col.cw-price \x7b width: 32mm; \x7d
          col.cw-sum \x7b width: 34mm; \x7d

          table.items thead th \x7b
            background: #f0f0f0;
            font-size: 11px;
            font-weight: 800;
            color: #333;
            border-bottom: 2px solid #d0d0d0;
            padding: 10px 10px;
          \x7d
          table.items tbody td \x7b
            border-bottom: 1px solid #e8e8e8;
            padding: 9px 10px;
            font-size: 11px;
            vertical-align: middle;
          \x7d
          table.items tbody tr:nth-child(2n) td \x7b
            background: #fafafa;
          \x7d

          th.th-num \x7b text-align: right; \x7d
          td.td-idx, td.td-qty, td.td-price, td.td-sum \x7b text-align: right; \x7d

          .numbox \x7b
            display: inline-block;
            text-align: right;
            white-space: nowrap;
            font-family: ui-monospace, SFMono-Regular, Menlo, Consolas, \"Liberation Mono\", monospace;
          \x7d

          .muted \x7b
            color: #888;
            font-style: italic;
            text-align: center;
          \x7d

          .totals \x7b
            margin-top: 10px;
            padding-top: 10px;
            border-top: 2px solid #d0d0d0;
          \x7d
          .total-row \x7b
            display: table;
            width: 100%;
          \x7d
          .total-label \x7b
            display: table-cell;
            text-align: right;
            font-weight: 700;
            font-size: 12px;
            color: #333;
            padding-right: 10px;
          \x7d
          .total-amount \x7b
            display: table-cell;
            width: 50mm;
            text-align: right;
            font-weight: 900;
            font-size: 16px;
            color: #2c3e50;
            white-space: nowrap;
            font-family: ui-monospace, SFMono-Regular, Menlo, Consolas, \"Liberation Mono\", monospace;
          \x7d

          .footer \x7b
            margin-top: 18px;
            padding-top: 10px;
            border-top: 1px solid #ddd;
            font-size: 10px;
            color: #666;
            line-height: 1.35;
          \x7d
        </style>
      </head>
      <body>

        <div class=\"header\">
          "

/-- Template between `logo_html` and the header date. -/
def tpl1 : String := "
          <div class=\"header-date\">"

/-- Template between the header date and the salon name. -/
def tpl2 : String := "</div>
          <div class=\"header-center\">
            <div class=\"title\">Накладная для "

/-- Template between the salon name and the order id. -/
def tpl3 : String := "</div>
            <div class=\"order-id\">Заказ №"

/-- Template between the order id and the sender name. -/
def tpl4 : String := "</div>
          </div>
          <div class=\"header-spacer\"></div>
        </div>

        <div class=\"sender\">
          <div class=\"label\">От кого</div>
          <div class=\"value\">"

/-- Template between the sender name and the sender phone. -/
def tpl5 : String := " <span class=\"phone\">("

/-- Template between the sender phone and the customer name. -/
def tpl6 : String := ")</span></div>
        </div>

        <div class=\"meta-info\">
          <div class=\"meta-section\">
            <div class=\"label\">Клиент</div>
            <div class=\"value\">
              <strong>"

/-- Template between the customer name and the customer email. -/
def tpl7 : String := "</strong><br>
              "

/-- Template between the customer email and the customer phone. -/
def tpl8 : String := "<br>
              "

/-- Template between the customer phone and the delivery address. -/
def tpl9 : String := "
            </div>
          </div>

          <div class=\"meta-section\">
            <div class=\"label\">Адрес доставки</div>
            <div class=\"value\">"

/-- Template between the delivery address and the table body. -/
def tpl10 : String := "</div>
          </div>
        </div>

        <div class=\"section-title\">Товары</div>
        <table class=\"items\">
          <colgroup>
            <col class=\"cw-idx\">
            <col>
            <col class=\"cw-qty\">
            <col class=\"cw-price\">
            <col class=\"cw-sum\">
          </colgroup>
          <thead>
            <tr>
              <th>№</th>
              <th>Наименование</th>
              <th class=\"th-num\">Кол-во</th>
              <th class=\"th-num\">Цена</th>
              <th class=\"th-num\">Сумма</th>
            </tr>
          </thead>
          <tbody>
            "

/-- Template between the table body and the total amount. -/
def tpl11 : String := "
          </tbody>
        </table>

        <div class=\"totals\">
          <div class=\"total-row\">
            <div class=\"total-label\">Итого к оплате:</div>
            <div class=\"total-amount\">"

/-- Template between the total amount and the generation timestamp. -/
def tpl12 : String := " ₽</div>
          </div>
        </div>

        <div class=\"footer\">
          <div>Дата генерации (МСК): "

/-- Template after the generation timestamp. -/
def tpl13 : String := "</div>
          <div>@BlossomffBot • Автоматически сформировано системой</div>
        </div>

      </body>
    </html>
    "

/-- `src/app.py` `build_invoice_html`.  Returns `none` when the item loop
raises (a non-dict item); otherwise the full markup string. -/
def build_invoice_html (salon_name sender_name sender_phone logo_path order_id
    customer_name customer_email customer_phone : String) (items : List JVal)
    (delivery_address : String) (total_sum : ℚ)
    (generation_dt_str header_date_str : String) : Option String :=
  match build_rows 1 items with
  | none => none
  | some rows =>
    let tbody := if rows.isEmpty then placeholderRow else joinNl rows
    let logo_html :=
      if logo_path ≠ "" then imgOpen ++ esc (.str logo_path) ++ imgClose else ""
    some (tpl0 ++ logo_html ++ tpl1 ++ esc (.str header_date_str) ++ tpl2 ++
      esc (.str salon_name) ++ tpl3 ++ esc (.str order_id) ++ tpl4 ++
      esc (.str sender_name) ++ tpl5 ++ esc (.str sender_phone) ++ tpl6 ++
      esc (.str customer_name) ++ tpl7 ++ esc (.str customer_email) ++ tpl8 ++
      esc (.str customer_phone) ++ tpl9 ++ esc (.str delivery_address) ++
      tpl10 ++ tbody ++ tpl11 ++ format2f total_sum ++ tpl12 ++
      esc (.str generation_dt_str) ++ tpl13)

/-- The normalized invoice fields returned by `_extract_invoice_fields`. -/
structure Fields where
  salon_name : String
  generation_dt_str : String
  header_date_str : String
  order_id : String
  customer_name : String
  customer_email : String
  customer_phone : String
  items : List JVal
  delivery_address : String
  total_sum : ℚ
  logo_path : String

/-- `src/app.py` `_extract_invoice_fields`.  The payload is the JSON dict;
the Moscow-clock strings and the logo-file existence probe are inputs of the
model. -/
def _extract_invoice_fields (payload : List (String × JVal))
    (nowDateStr nowDateTimeStr : String) (logoExists : Bool) : Fields :=
  { salon_name := pyStr (pyOr (dget payload "salon_name") (.str "Салон"))
    generation_dt_str := nowDateTimeStr
    header_date_str :=
      pyStr (pyOr (dget payload "invoice_date")
        (pyOr (dget payload "date") (.str nowDateStr)))
    order_id := pyStr (pyOr (dget payload "order_id") (.str "UNKNOWN"))
    customer_name := pyStr (pyOr (dget payload "customer_name") (.str "Не указано"))
    customer_email := pyStr (pyOr (dget payload "customer_email") (.str "—"))
    customer_phone := pyStr (pyOr (dget payload "customer_phone") (.str "—"))
    items := match lookupField "items" payload with
             | some (.arr xs) => xs
             | _ => []
    delivery_address := pyStr (pyOr (dget payload "delivery_address") (.str "Не указано"))
    total_sum := tryFloat (dgetD payload "total_sum" (.num 0))
    logo_path := if logoExists then "blossom_logo.png" else "" }

/-- The attachment filename built in `_build_invoice_pdf`:
`f'{f["header_date_str"]}_{safe_salon}_{safe_order}.pdf'`.  Only the salon and
order tokens pass through `_safe_filename`; the date token is interpolated
verbatim. -/
def invoice_filename (f : Fields) : String :=
  f.header_date_str ++ "_" ++ _safe_filename f.salon_name ++ "_" ++
    _safe_filename f.order_id ++ ".pdf"

/-- The Telegram caption built in `_build_invoice_pdf`. -/
def invoice_caption (f : Fields) : String :=
  "<b>🧾 Накладная заказа №</b><code>" ++ htmlEscape f.order_id ++ "</code>\n" ++
  "<b>📅 Дата:</b> <code>" ++ htmlEscape f.header_date_str ++ "</code>\n" ++
  "<b>👤 Клиент:</b> <code>" ++ htmlEscape f.salon_name ++ "</code>\n" ++
  "<b>💸 Общая сумма:</b> <code>" ++ format2f f.total_sum ++ " ₽</code>"

/-- Process-wide configuration read from the environment at startup. -/
structure Config where
  botToken : Option String
  adminChatId : Option String
  internalApiToken : Option String
  senderName : String
  senderPhone : String
  logoExists : Bool

/-- The remote Telegram endpoint's reply to `sendDocument` (an input of the
model: status plus whether `requests` flags it as ok, its text and its JSON). -/
structure TgResp where
  ok : Bool
  status : ℕ
  text : String
  json : JVal

/-- Observable side effects of one request pipeline. -/
inductive Effect where
  | renderPdf (markup : String)
  | sendDocument (chat_id filename caption : String)

/-- `src/app.py` `send_pdf`: raises when the bot token is unset (falsy) and
when the remote endpoint reports non-success, carrying the remote status code
and response body; otherwise returns the remote JSON. -/
def send_pdf (cfg : Config) (tg : TgResp) (_chat_id _pdf_bytes _filename _caption : String) :
    Except String JVal :=
  if cfg.botToken.getD "" = "" then .error "BLOSSOM_BOT_TOKEN is not set"
  else if tg.ok then .ok tg.json
  else .error ("Telegram error " ++ natDecimal tg.status ++ ": " ++ tg.text)

/-- `src/app.py` `_build_invoice_pdf`: normalize, render the markup, convert
it to bytes with the external engine, and derive filename/caption.  Returns
the raised error text on failure, plus the effect trace (the artifact
generation step). -/
def _build_invoice_pdf (cfg : Config) (pdfEngine : String → Except String String)
    (payload : List (String × JVal)) (nowDateStr nowDateTimeStr : String) :
    Except String (String × String × String × String) × List Effect :=
  let f := _extract_invoice_fields payload nowDateStr nowDateTimeStr cfg.logoExists
  match build_invoice_html f.salon_name cfg.senderName cfg.senderPhone f.logo_path
      f.order_id f.customer_name f.customer_email f.customer_phone f.items
      f.delivery_address f.total_sum f.generation_dt_str f.header_date_str with
  | none => (.error "AttributeError: object has no attribute get", [])
  | some html_doc =>
    match pdfEngine html_doc with
    | .error e => (.error e, [.renderPdf html_doc])
    | .ok pdf_bytes =>
      (.ok (pdf_bytes, invoice_filename f, invoice_caption f, f.order_id),
       [.renderPdf html_doc])

/-- `require_internal_token`'s gate: the header must be present, truthy and
equal to the configured secret (`not token or token != INTERNAL_API_TOKEN`).
A string never equals an unset (`None`) secret. -/
def authorized (token : Option String) (secret : Option String) : Bool :=
  match token with
  | none => false
  | some t => t != "" && some t == secret

/-- The 401 response produced by `require_internal_token`. -/
def unauthorizedResp : ℕ × JVal := (401, .obj [("error", .str "Unauthorized")])

/-- `POST /admin/invoice/pdf` (`invoice_pdf`): token gate, then build the
document and return it (the 200 body models the binary response and its
headers); any pipeline exception becomes a 500 JSON failure. -/
def invoice_pdf_route (cfg : Config) (headerToken : Option String)
    (pdfEngine : String → Except String String) (payload : List (String × JVal))
    (nowDateStr nowDateTimeStr : String) : (ℕ × JVal) × List Effect :=
  if authorized headerToken cfg.internalApiToken then
    match _build_invoice_pdf cfg pdfEngine payload nowDateStr nowDateTimeStr with
    | (.ok (pdf_bytes, filename, _caption, order_id), effs) =>
      ((200, .obj [("pdf", .str pdf_bytes), ("filename", .str filename),
                   ("order_id", .str order_id)]), effs)
    | (.error e, effs) => ((500, .obj [("ok", .bool false), ("error", .str e)]), effs)
  else (unauthorizedResp, [])

/-- `POST /admin/invoice/send` (`send_invoice`): token gate, recipient-id
configuration check, build, then delivery; failures become `{ok: false,
error}` with status 500.  The `sendDocument` post happens only when the bot
token is set (otherwise `send_pdf` raises before posting). -/
def send_invoice_route (cfg : Config) (headerToken : Option String)
    (pdfEngine : String → Except String String) (tg : TgResp)
    (payload : List (String × JVal)) (nowDateStr nowDateTimeStr : String) :
    (ℕ × JVal) × List Effect :=
  if authorized headerToken cfg.internalApiToken then
    if cfg.adminChatId.getD "" = "" then
      ((500, .obj [("ok", .bool false), ("error", .str "ADMIN_CHAT_ID is not set")]), [])
    else
      match _build_invoice_pdf cfg pdfEngine payload nowDateStr nowDateTimeStr with
      | (.error e, effs) => ((500, .obj [("ok", .bool false), ("error", .str e)]), effs)
      | (.ok (pdf_bytes, filename, caption, order_id), effs) =>
        let postEffs := effs ++
          (if cfg.botToken.getD "" = "" then []
           else [.sendDocument (cfg.adminChatId.getD "") filename caption])
        match send_pdf cfg tg (cfg.adminChatId.getD "") pdf_bytes filename caption with
        | .error e => ((500, .obj [("ok", .bool false), ("error", .str e)]), postEffs)
        | .ok tg_json =>
          ((200, .obj [("ok", .bool true), ("order_id", .str order_id),
                       ("telegram", tg_json)]), postEffs)
  else (unauthorizedResp, [])

/-- `entityTail l` holds when `l` starts with the body of one of the five
entities produced by `html.escape` (the part after the ampersand). -/
def entityTail (l : List Char) : Bool :=
  leadsWith ("amp;").data l || leadsWith ("lt;").data l ||
  leadsWith ("gt;").data l || leadsWith ("quot;").data l ||
  leadsWith ("#x27;").data l

/-- Every ampersand in the list starts a complete `html.escape` entity. -/
def ampOk : List Char → Bool
  | [] => true
  | c :: rest => (if c = '&' then entityTail rest else true) && ampOk rest

/-- A list of `n` featureless items (empty dicts): same shape, no user text. -/
def blankItems (n : ℕ) : List JVal := List.replicate n (JVal.obj [])

/-- ASCII uppercase test (by code point). -/
def isAsciiUpper (c : Char) : Bool :=
  decide (65 ≤ c.toNat) && decide (c.toNat ≤ 90)

/-! ## Helper lemmas -/

/-- String concatenation concatenates the underlying character lists. -/
theorem data_append : ∀ (a b : String), (a ++ b).data = a.data ++ b.data
  | ⟨_⟩, ⟨_⟩ => rfl

/-- A pattern that leads a list still leads it after appending on the right. -/
theorem leadsWith_append {p l : List Char} (r : List Char)
    (h : leadsWith p l = true) : leadsWith p (l ++ r) = true := by
  induction p generalizing l with
  | nil => rfl
  | cons x xs ih =>
    cases l with
    | nil => exact absurd h (by simp [leadsWith])
    | cons c cs =>
      simp only [leadsWith, Bool.and_eq_true] at h
      simp only [List.cons_append, leadsWith, Bool.and_eq_true]
      exact ⟨h.1, ih h.2⟩

/-- Every pattern leads its own right extensions. -/
theorem leadsWith_self_append (p r : List Char) : leadsWith p (p ++ r) = true := by
  induction p with
  | nil => rfl
  | cons x xs ih => simp [leadsWith, ih]

/-- A leading occurrence is an occurrence. -/
theorem containsSub_of_leadsWith {p l : List Char} (h : leadsWith p l = true) :
    containsSub p l = true := by
  cases l with
  | nil =>
    cases p with
    | nil => rfl
    | cons x xs => exact absurd h (by simp [leadsWith])
  | cons c cs => simp [containsSub, h]

/-- Occurrences survive appending on the left. -/
theorem containsSub_append_left {p l : List Char} (x : List Char)
    (h : containsSub p l = true) : containsSub p (x ++ l) = true := by
  induction x with
  | nil => simpa using h
  | cons c cs ih => simp [containsSub, ih]

/-- A pattern occurs in itself followed by anything. -/
theorem containsSub_self_append (p r : List Char) : containsSub p (p ++ r) = true :=
  containsSub_of_leadsWith (leadsWith_self_append p r)

/-- The sanitizer output: safe charset only, never empty, at most 60 chars. -/
theorem safe_filename_props (s : String) :
    (∀ c ∈ (_safe_filename s).data, safeChar c = true) ∧
    (_safe_filename s).data ≠ [] ∧
    (_safe_filename s).data.length ≤ 60 := by
  simp only [_safe_filename]
  set L := ((collapseWsAux false ((pyStrip s.data).map Char.toLower)).filter safeChar).take 60
    with hL
  by_cases h : L.isEmpty = true
  · rw [if_pos h]
    exact ⟨by decide, by decide, by decide⟩
  · rw [if_neg h]
    refine ⟨?_, ?_, ?_⟩
    · intro c hc
      exact (List.mem_filter.mp (List.take_subset 60 _ hc)).2
    · intro hnil
      exact h (by rw [show (String.mk L).data = L from rfl] at hnil; rw [hnil]; rfl)
    · show L.length ≤ 60
      rw [hL]
      exact List.length_take_le 60 _

/-- Characters of the safe charset are neither ASCII uppercase nor whitespace. -/
theorem safeChar_not_upper_space {c : Char} (hc : safeChar c = true) :
    isAsciiUpper c = false ∧ isPySpace c = false := by
  have hnat : ((97 ≤ c.toNat ∧ c.toNat ≤ 122 ∨ 48 ≤ c.toNat ∧ c.toNat ≤ 57) ∨
      c.toNat = 95) ∨ c.toNat = 45 := by
    simpa [safeChar, Bool.or_eq_true, Bool.and_eq_true, decide_eq_true_eq,
      Nat.beq_eq_true_eq] using hc
  constructor
  · rw [Bool.eq_false_iff]
    intro hup
    simp only [isAsciiUpper, Bool.and_eq_true, decide_eq_true_eq] at hup
    omega
  · rw [Bool.eq_false_iff]
    intro hsp
    simp only [isPySpace, Bool.or_eq_true, beq_iff_eq] at hsp
    rcases hsp with ((((rfl | rfl) | rfl) | rfl) | rfl) | rfl <;>
      exact absurd hnat (by decide)

/-! ## C9 — `_safe_filename` normalizes to the safe charset -/

/-- C9: for every input string the sanitizer yields a result whose characters
all lie in `[a-z0-9_-]` (hence no uppercase letters and no whitespace), never
empty (the `"file"` fallback), and of length at most 60. -/
theorem c9_safe_filename (s : String) :
    (∀ c ∈ (_safe_filename s).data, safeChar c = true) ∧
    (_safe_filename s).data ≠ [] ∧
    (_safe_filename s).data.length ≤ 60 ∧
    (∀ c ∈ (_safe_filename s).data, isAsciiUpper c = false ∧ isPySpace c = false) := by
  obtain ⟨h1, h2, h3⟩ := safe_filename_props s
  exact ⟨h1, h2, h3, fun c hc => safeChar_not_upper_space (h1 c hc)⟩

/-- C9 witness: a concrete sanitization together with an instantiated
charset fact obtained from the theorem. -/
theorem c9_witness :
    _safe_filename "A B!" = "a_b" ∧ _safe_filename "©®" = "file" ∧
    safeChar 'a' = true :=
  ⟨by decide, by decide, (c9_safe_filename "A B!").1 'a' (by decide)⟩

/-! ## C6 — non-list `items` normalizes to the empty list -/

/-- C6: normalization accepts `items` only when the payload value is
literally a JSON array; an object, string, number, boolean, null or absent
`items` field yields the empty item list (and, the extractor being a total
function, no error). -/
theorem c6_items (payload : List (String × JVal)) (nd ndt : String) (lE : Bool) :
    (∀ o, lookupField "items" payload = some (.obj o) →
      (_extract_invoice_fields payload nd ndt lE).items = []) ∧
    (∀ t, lookupField "items" payload = some (.str t) →
      (_extract_invoice_fields payload nd ndt lE).items = []) ∧
    (∀ q, lookupField "items" payload = some (.num q) →
      (_extract_invoice_fields payload nd ndt lE).items = []) ∧
    (∀ b, lookupField "items" payload = some (.bool b) →
      (_extract_invoice_fields payload nd ndt lE).items = []) ∧
    (lookupField "items" payload = some .null →
      (_extract_invoice_fields payload nd ndt lE).items = []) ∧
    (lookupField "items" payload = none →
      (_extract_invoice_fields payload nd ndt lE).items = []) ∧
    (∀ xs, lookupField "items" payload = some (.arr xs) →
      (_extract_invoice_fields payload nd ndt lE).items = xs) := by
  refine ⟨?_, ?_, ?_, ?_, ?_, ?_, ?_⟩ <;> intros <;>
    simp_all [_extract_invoice_fields]

/-- C6 witness: concrete payloads of each shape. -/
theorem c6_witness :
    (_extract_invoice_fields [("items", JVal.str "nope")] "d" "t" false).items = [] ∧
    (_extract_invoice_fields [("items", JVal.obj [])] "d" "t" false).items = [] ∧
    (_extract_invoice_fields [("items", JVal.num 3)] "d" "t" false).items = [] ∧
    (_extract_invoice_fields [("items", JVal.null)] "d" "t" false).items = [] ∧
    (_extract_invoice_fields [("delivery_address", JVal.str "x")] "d" "t" false).items = [] ∧
    (_extract_invoice_fields [("items", JVal.arr [JVal.num 7])] "d" "t" false).items =
      [JVal.num 7] :=
  ⟨(c6_items _ _ _ _).2.1 "nope" rfl,
   (c6_items _ _ _ _).1 [] rfl,
   (c6_items _ _ _ _).2.2.1 3 rfl,
   (c6_items _ _ _ _).2.2.2.2.1 rfl,
   (c6_items _ _ _ _).2.2.2.2.2.1 rfl,
   (c6_items _ _ _ _).2.2.2.2.2.2 _ rfl⟩

/-! ## C1 — numeric coercion never raises, but a non-dict item aborts -/

/-- C1 counterexample: a single malformed (non-dict) item in the list makes
`build_invoice_html` raise (`item.get` on a string), aborting the document. -/
theorem c1_counterexample :
    build_invoice_html "SalonName" "SN" "SP" "" "ORD" "CN" "CE" "CP"
      [JVal.str "oops"] "ADDR" 0 "GEN" "HDR" = none := rfl

/-- C1 (amended): provided every item is a JSON object, the row loop never
raises; a `quantity`/`price`/`total_sum` value that fails numeric coercion is
replaced by `0.0`, and the rendered line amount is the coerced price times
the coerced quantity. -/
theorem c1_amended :
    (∀ (objItems : List (List (String × JVal))) (i : ℕ),
      (build_rows i (objItems.map JVal.obj)).isSome = true) ∧
    (∀ v : JVal, pyFloat v = none → tryFloat v = 0) ∧
    (∀ (fs : List (String × JVal)) (idx : ℕ),
      build_row idx (.obj fs) =
        some (rowHtml idx (esc (dgetD fs "name" (.str "")))
          (tryFloat (dgetD fs "quantity" (.num 0)))
          (tryFloat (dgetD fs "price" (.num 0)))
          (tryFloat (dgetD fs "price" (.num 0)) *
            tryFloat (dgetD fs "quantity" (.num 0))))) ∧
    (∀ (payload : List (String × JVal)) (nd ndt : String) (lE : Bool),
      pyFloat (dgetD payload "total_sum" (.num 0)) = none →
      (_extract_invoice_fields payload nd ndt lE).total_sum = 0) := by
  refine ⟨?_, ?_, ?_, ?_⟩
  · intro objItems
    induction objItems with
    | nil => intro i; rfl
    | cons fs rest ih =>
      intro i
      have h := ih (i + 1)
      revert h
      simp only [List.map_cons, build_rows, build_row]
      cases build_rows (i + 1) (rest.map JVal.obj) <;> simp
  · intro v h; simp [tryFloat, h]
  · intro fs idx; rfl
  · intro payload nd ndt lE h
    simp [_extract_invoice_fields, tryFloat, h]

/-- C1 witness: a non-numeric quantity string coerces to zero inside an
intact two-item document, and a non-numeric total coerces to zero. -/
theorem c1_witness :
    tryFloat (JVal.str "abc") = 0 ∧
    (build_rows 1 [JVal.obj [("quantity", JVal.str "zzz")], JVal.obj []]).isSome = true ∧
    (_extract_invoice_fields [("total_sum", JVal.str "x")] "d" "t" false).total_sum = 0 :=
  ⟨c1_amended.2.1 _ rfl,
   by simpa using c1_amended.1 [[("quantity", JVal.str "zzz")], []] 1,
   c1_amended.2.2.2 _ "d" "t" false rfl⟩

/-! ## C2 — the filename's date token is not sanitized -/

/-- C2 counterexample: with `invoice_date` set to `"<bad date>"` the attached
filename is `"<bad date>_file_unknown.pdf"`, which contains `<` — a character
outside `[a-z0-9_-]` that is neither the separator `_` nor part of the
`.pdf` extension.  The date token is interpolated into the filename without
sanitization. -/
theorem c2_counterexample :
    invoice_filename (_extract_invoice_fields [("invoice_date", JVal.str "<bad date>")]
      "01.01.2025" "01.01.2025 10:00" false) = "<bad date>_file_unknown.pdf" ∧
    '<' ∈ ("<bad date>_file_unknown.pdf").data ∧ safeChar '<' = false ∧
    '<' ≠ '_' ∧ '<' ∉ (".pdf").data := by
  exact ⟨by decide, by decide, by decide, by decide, by decide⟩

/-- C2 (amended): the filename is the verbatim header date token, the
sanitized salon token and the sanitized order token joined by `_` with a
`.pdf` extension; the two sanitized tokens are in the safe charset, nonempty
and at most 60 characters, and the filename is never empty — but the date
token (hence the whole filename) is not constrained to the safe charset or
to a bounded length. -/
theorem c2_amended (payload : List (String × JVal)) (nd ndt : String) (lE : Bool) :
    invoice_filename (_extract_invoice_fields payload nd ndt lE) =
      (_extract_invoice_fields payload nd ndt lE).header_date_str ++ "_" ++
      _safe_filename (_extract_invoice_fields payload nd ndt lE).salon_name ++ "_" ++
      _safe_filename (_extract_invoice_fields payload nd ndt lE).order_id ++ ".pdf" ∧
    (∀ c ∈ (_safe_filename (_extract_invoice_fields payload nd ndt lE).salon_name).data,
      safeChar c = true) ∧
    (_safe_filename (_extract_invoice_fields payload nd ndt lE).salon_name).data ≠ [] ∧
    (_safe_filename (_extract_invoice_fields payload nd ndt lE).salon_name).data.length ≤ 60 ∧
    (∀ c ∈ (_safe_filename (_extract_invoice_fields payload nd ndt lE).order_id).data,
      safeChar c = true) ∧
    (_safe_filename (_extract_invoice_fields payload nd ndt lE).order_id).data ≠ [] ∧
    (_safe_filename (_extract_invoice_fields payload nd ndt lE).order_id).data.length ≤ 60 ∧
    invoice_filename (_extract_invoice_fields payload nd ndt lE) ≠ "" := by
  obtain ⟨a1, a2, a3⟩ :=
    safe_filename_props (_extract_invoice_fields payload nd ndt lE).salon_name
  obtain ⟨b1, b2, b3⟩ :=
    safe_filename_props (_extract_invoice_fields payload nd ndt lE).order_id
  refine ⟨rfl, a1, a2, a3, b1, b2, b3, ?_⟩
  intro h
  have hlen := congrArg (fun t => t.data.length) h
  simp only [invoice_filename, data_append, List.length_append] at hlen
  have h4 : (".pdf" : String).data.length = 4 := rfl
  rw [h4] at hlen
  simp at hlen

/-! ## C4 — the token gate rejects before any pipeline work -/

/-- C4: a request to either route whose `X-Internal-Token` header is missing
or does not match the configured secret is answered with the 401
`Unauthorized` JSON body, and the pipeline produces no effect: no markup is
rendered, no artifact is generated, nothing is delivered. -/
theorem c4_auth_gate (cfg : Config) (tok : Option String)
    (pdfE : String → Except String String) (tg : TgResp)
    (payload : List (String × JVal)) (nd ndt : String)
    (h : authorized tok cfg.internalApiToken = false) :
    send_invoice_route cfg tok pdfE tg payload nd ndt = (unauthorizedResp, []) ∧
    invoice_pdf_route cfg tok pdfE payload nd ndt = (unauthorizedResp, []) := by
  constructor <;> simp [send_invoice_route, invoice_pdf_route, h]

/-- C4 witness: a wrong token and a missing token on concrete requests. -/
theorem c4_witness :
    authorized (some "wrong") (some "secret") = false ∧
    authorized none (some "secret") = false ∧
    send_invoice_route ⟨some "bt", some "chat", some "secret", "SN", "SP", false⟩
      (some "wrong") (fun _ => .ok "BYTES") ⟨true, 200, "", .null⟩ [] "d" "t" =
      (unauthorizedResp, []) ∧
    invoice_pdf_route ⟨some "bt", some "chat", some "secret", "SN", "SP", false⟩
      none (fun _ => .ok "BYTES") [] "d" "t" = (unauthorizedResp, []) :=
  ⟨rfl, rfl,
   (c4_auth_gate ⟨some "bt", some "chat", some "secret", "SN", "SP", false⟩
     (some "wrong") (fun _ => .ok "BYTES") ⟨true, 200, "", .null⟩ [] "d" "t" rfl).1,
   (c4_auth_gate ⟨some "bt", some "chat", some "secret", "SN", "SP", false⟩
     none (fun _ => .ok "BYTES") ⟨true, 200, "", .null⟩ [] "d" "t" rfl).2⟩

/-! ## C10 — unset secret fails closed -/

/-- C10: when the configured secret is unset (`None`), every request is
rejected as unauthorized whatever header value is supplied — a present
header is a string that never equals the unset secret, and an absent header
fails the presence check — and no pipeline effect occurs. -/
theorem c10_fail_closed (bt ac : Option String) (sn sp : String) (lE : Bool)
    (tok : Option String) (pdfE : String → Except String String) (tg : TgResp)
    (payload : List (String × JVal)) (nd ndt : String) :
    authorized tok none = false ∧
    send_invoice_route ⟨bt, ac, none, sn, sp, lE⟩ tok pdfE tg payload nd ndt =
      (unauthorizedResp, []) ∧
    invoice_pdf_route ⟨bt, ac, none, sn, sp, lE⟩ tok pdfE payload nd ndt =
      (unauthorizedResp, []) := by
  have hfc : authorized tok none = false := by
    cases tok with
    | none => rfl
    | some t => exact Bool.and_false _
  exact ⟨hfc, by simp [send_invoice_route, hfc], by simp [invoice_pdf_route, hfc]⟩

/-- `build_rows` yields one row per item. -/
theorem build_rows_length : ∀ (items : List JVal) (i : ℕ) (rs : List String),
    build_rows i items = some rs → rs.length = items.length := by
  intro items
  induction items with
  | nil =>
    intro i rs h
    simp only [build_rows, Option.some.injEq] at h
    rw [← h]
    rfl
  | cons it rest ih =>
    intro i rs h
    simp only [build_rows] at h
    cases hrow : build_row i it with
    | none => rw [hrow] at h; exact absurd h (by simp)
    | some row =>
      rw [hrow] at h
      cases hrem : build_rows (i + 1) rest with
      | none => rw [hrem] at h; exact absurd h (by simp)
      | some rows =>
        rw [hrem] at h
        simp only [Option.some.injEq] at h
        rw [← h]
        simp [ih (i + 1) rows hrem]

/-- The `k`-th accumulated row is the rendering of the `k`-th item at
1-based index `i + k`. -/
theorem build_rows_get : ∀ (items : List JVal) (i : ℕ) (rs : List String),
    build_rows i items = some rs →
    ∀ k : ℕ, rs[k]? = (items[k]?).bind (fun it => build_row (i + k) it) := by
  intro items
  induction items with
  | nil =>
    intro i rs h k
    simp only [build_rows, Option.some.injEq] at h
    rw [← h]
    simp
  | cons it rest ih =>
    intro i rs h k
    simp only [build_rows] at h
    cases hrow : build_row i it with
    | none => rw [hrow] at h; exact absurd h (by simp)
    | some row =>
      rw [hrow] at h
      cases hrem : build_rows (i + 1) rest with
      | none => rw [hrem] at h; exact absurd h (by simp)
      | some rows =>
        rw [hrem] at h
        simp only [Option.some.injEq] at h
        rw [← h]
        cases k with
        | zero => simpa using hrow.symm
        | succ k =>
          simp only [List.getElem?_cons_succ]
          have := ih (i + 1) rows hrem k
          rw [this]
          have harith : i + 1 + k = i + (k + 1) := by omega
          rw [harith]

/-- The fuel-bounded digit extractor agrees with `Nat.digits 10`. -/
theorem digitsRevAux_eq : ∀ (fuel n : ℕ), n ≤ fuel →
    digitsRevAux fuel n = Nat.digits 10 n := by
  intro fuel
  induction fuel with
  | zero =>
    intro n h
    have : n = 0 := Nat.le_zero.mp h
    subst this
    simp [digitsRevAux]
  | succ f ih =>
    intro n h
    by_cases hn : n = 0
    · subst hn; simp [digitsRevAux]
    · rw [show digitsRevAux (f + 1) n = n % 10 :: digitsRevAux f (n / 10) by
        simp [digitsRevAux, hn]]
      rw [Nat.digits_def' (by norm_num : 1 < 10) (Nat.pos_of_ne_zero hn)]
      congr 1
      apply ih
      have : n / 10 < n := Nat.div_lt_self (Nat.pos_of_ne_zero hn) (by norm_num)
      omega

/-- `natDigits` agrees with `Nat.digits 10`. -/
theorem natDigits_eq (n : ℕ) : natDigits n = Nat.digits 10 n :=
  digitsRevAux_eq n n le_rfl

/-- `natLog10` agrees with `Nat.log 10` on nonzero input. -/
theorem natLog10_eq (n : ℕ) (hn : n ≠ 0) : natLog10 n = Nat.log 10 n := by
  unfold natLog10
  rw [natDigits_eq, Nat.digits_len 10 n (by norm_num) hn]
  omega

/-- Decimal digits of `n * 10 ^ k`: `k` zeros then the digits of `n`. -/
theorem digits_mul_pow_ten (n : ℕ) (hn : n ≠ 0) :
    ∀ k : ℕ, Nat.digits 10 (n * 10 ^ k) = List.replicate k 0 ++ Nat.digits 10 n := by
  intro k
  induction k with
  | zero => simp
  | succ k ih =>
    have hpos : 0 < n * 10 ^ k := by positivity
    rw [pow_succ, ← mul_assoc]
    rw [Nat.digits_def' (by norm_num : 1 < 10) (by positivity)]
    rw [Nat.mul_mod_left, Nat.mul_div_cancel _ (by norm_num : 0 < 10)]
    rw [ih]
    simp [List.replicate_succ]

/-- The code point of a decimal digit character. -/
theorem digitChar_toNat (d : ℕ) (hd : d < 10) : (digitChar d).toNat = 48 + d := by
  interval_cases d <;> rfl

/-- Every character of a decimal numeral is an ASCII digit (code 48–57). -/
theorem mem_natDecimal (n : ℕ) : ∀ c ∈ (natDecimal n).data,
    48 ≤ c.toNat ∧ c.toNat ≤ 57 := by
  intro c hc
  unfold natDecimal at hc
  by_cases hn : n = 0
  · rw [if_pos hn] at hc
    have : c = '0' := by simpa using hc
    subst this
    exact ⟨by decide, by decide⟩
  · rw [if_neg hn] at hc
    have hc2 : c ∈ (natDigits n).map digitChar := List.mem_reverse.mp hc
    obtain ⟨d, hd, rfl⟩ := List.mem_map.mp hc2
    have hd10 : d < 10 := by
      rw [natDigits_eq] at hd
      exact Nat.digits_lt_base (by norm_num) hd
    rw [digitChar_toNat d hd10]
    omega

/-- `digitsMSB` of `n * 10 ^ k`: the digits of `n` then `k` zero characters. -/
theorem digitsMSB_mul_pow (n : ℕ) (hn : n ≠ 0) (k : ℕ) :
    digitsMSB (n * 10 ^ k) = digitsMSB n ++ List.replicate k '0' := by
  unfold digitsMSB
  rw [natDigits_eq, natDigits_eq, digits_mul_pow_ten n hn k]
  rw [List.map_append, List.reverse_append, List.map_replicate, List.reverse_replicate]
  rfl

/-- Length of the decimal digit list. -/
theorem digitsMSB_length (n : ℕ) (hn : n ≠ 0) :
    (digitsMSB n).length = Nat.log 10 n + 1 := by
  unfold digitsMSB
  rw [natDigits_eq]
  simp [Nat.digits_len 10 n (by norm_num) hn]

/-- A run of zero characters strips to nothing. -/
theorem stripZeros_replicate (k : ℕ) : stripZeros (List.replicate k '0') = [] := by
  unfold stripZeros
  rw [List.reverse_replicate]
  have : (List.replicate k '0').dropWhile (fun c => c == '0') = [] := by
    induction k with
    | zero => rfl
    | succ k ih => simp [List.replicate_succ, List.dropWhile, ih]
  rw [this]
  rfl

/-- Ties-to-even rounding is the identity on integers (cast from ℕ). -/
theorem roundHalfEven_natCast (N : ℕ) : roundHalfEven (N : ℚ) = N := by
  unfold roundHalfEven
  rw [Int.floor_natCast]
  norm_num

/-- The decimal exponent of a positive natural number is its base-10 log. -/
theorem decExpPos_natCast (n : ℕ) (hn : n ≠ 0) :
    decExpPos (n : ℚ) = (Nat.log 10 n : ℤ) := by
  unfold decExpPos
  rw [if_pos (by exact_mod_cast Nat.one_le_iff_ne_zero.mpr hn)]
  rw [Int.floor_natCast, Int.toNat_natCast, natLog10_eq n hn]

/-- Appending the empty string is the identity. -/
theorem str_append_empty (s : String) : s ++ "" = s := by
  cases s with
  | mk l => show String.mk (l ++ []) = String.mk l; rw [List.append_nil]

/-- `fixedForm` of six significant digits obtained from an integer shows the
integer's digits with the zero fraction stripped. -/
theorem fixedForm_int (n : ℕ) (hn : n ≠ 0) :
    fixedForm (n * 10 ^ (5 - Nat.log 10 n)) (Nat.log 10 n : ℤ) =
      String.mk (digitsMSB n) := by
  unfold fixedForm
  rw [if_pos (by exact_mod_cast Nat.zero_le _ : (0:ℤ) ≤ (Nat.log 10 n : ℤ))]
  rw [Int.toNat_natCast]
  rw [digitsMSB_mul_pow n hn]
  have hlen : (digitsMSB n).length = Nat.log 10 n + 1 := digitsMSB_length n hn
  rw [show Nat.log 10 n + 1 = (digitsMSB n).length from hlen.symm]
  rw [List.take_left, List.drop_left, stripZeros_replicate]
  simp only [List.isEmpty_nil, if_true]
  exact str_append_empty _

/-- The `%g` format renders an integral value below one million as its plain
decimal numeral — no decimal point, no exponent, no trailing zeros. -/
theorem formatG_natCast (n : ℕ) (h0 : 0 < n) (h6 : n < 1000000) :
    formatG (n : ℚ) = natDecimal n := by
  have hn : n ≠ 0 := Nat.pos_iff_ne_zero.mp h0
  have hL5 : Nat.log 10 n ≤ 5 := by
    have h1 : 10 ^ Nat.log 10 n ≤ n := Nat.pow_log_le_self 10 hn
    by_contra hgt
    push_neg at hgt
    have h2 : (10:ℕ) ^ 6 ≤ 10 ^ Nat.log 10 n := Nat.pow_le_pow_right (by norm_num) hgt
    have h3 : (10:ℕ) ^ 6 = 1000000 := by norm_num
    omega
  have hq0 : ¬((n : ℚ) = 0) := by exact_mod_cast hn
  have hneg : ¬((n : ℚ) < 0) := not_lt.mpr (by positivity)
  have habs : |(n : ℚ)| = (n : ℚ) := abs_of_nonneg (by positivity)
  have hsub : (5 - (Nat.log 10 n : ℤ)) = ((5 - Nat.log 10 n : ℕ) : ℤ) := by omega
  have hcast : (n : ℚ) * (10 : ℚ) ^ ((5 - Nat.log 10 n : ℕ) : ℤ) =
      ((n * 10 ^ (5 - Nat.log 10 n) : ℕ) : ℚ) := by
    rw [zpow_natCast]
    push_cast
    ring
  have hlt : n * 10 ^ (5 - Nat.log 10 n) < 10 ^ 6 := by
    have h1 : n < 10 ^ (Nat.log 10 n + 1) := Nat.lt_pow_succ_log_self (by norm_num) n
    calc n * 10 ^ (5 - Nat.log 10 n)
        < 10 ^ (Nat.log 10 n + 1) * 10 ^ (5 - Nat.log 10 n) :=
          (Nat.mul_lt_mul_right (by positivity)).mpr h1
      _ = 10 ^ (Nat.log 10 n + 1 + (5 - Nat.log 10 n)) := by ring
      _ ≤ 10 ^ 6 := Nat.pow_le_pow_right (by norm_num) (by omega)
  have hm6 : ¬(((n * 10 ^ (5 - Nat.log 10 n) : ℕ) : ℤ) = 10 ^ 6) := by
    intro hh
    have h66 : (10:ℤ) ^ 6 = ((10 ^ 6 : ℕ) : ℤ) := by norm_num
    rw [h66] at hh
    have : (n * 10 ^ (5 - Nat.log 10 n) : ℕ) = 10 ^ 6 := by exact_mod_cast hh
    omega
  simp only [formatG]
  rw [if_neg hq0, if_neg hneg, habs, decExpPos_natCast n hn, hsub, hcast,
    roundHalfEven_natCast, if_neg hm6]
  rw [if_pos (by constructor <;> omega : (-4:ℤ) ≤ (Nat.log 10 n : ℤ) ∧ (Nat.log 10 n : ℤ) < 6)]
  rw [if_neg hm6]
  rw [Int.toNat_natCast]
  rw [fixedForm_int n hn]
  rw [show ("" ++ String.mk (digitsMSB n)) = String.mk (digitsMSB n) from rfl]
  unfold natDecimal
  rw [if_neg hn]

/-- `leadsWith` ignores a shared prefix. -/
theorem leadsWith_append_left (a : List Char) {b l : List Char}
    (h : leadsWith b l = true) : leadsWith (a ++ b) (a ++ l) = true := by
  induction a with
  | nil => simpa using h
  | cons x xs ih => simp [leadsWith, ih]

/-- Shape of the `%.2f` output: some point-free prefix, then a decimal point,
then exactly two digit characters. -/
theorem format2f_shape (q : ℚ) :
    ∃ pre a b, (format2f q).data = pre ++ '.' :: [a, b] ∧ '.' ∉ pre ∧
      48 ≤ a.toNat ∧ a.toNat ≤ 57 ∧ 48 ≤ b.toNat ∧ b.toNat ≤ 57 := by
  have hd1 : (roundHalfEven (q * 100)).natAbs % 100 / 10 % 10 < 10 :=
    Nat.mod_lt _ (by norm_num)
  have hd2 : (roundHalfEven (q * 100)).natAbs % 100 % 10 < 10 :=
    Nat.mod_lt _ (by norm_num)
  refine ⟨(if q < 0 then "-" else "").data ++
      (natDecimal ((roundHalfEven (q * 100)).natAbs / 100)).data,
    digitChar ((roundHalfEven (q * 100)).natAbs % 100 / 10 % 10),
    digitChar ((roundHalfEven (q * 100)).natAbs % 100 % 10), ?_, ?_, ?_, ?_, ?_, ?_⟩
  · show (format2f q).data = _
    unfold format2f twoDigits
    rw [data_append, data_append, data_append]
    simp [List.append_assoc]
  · intro hmem
    rcases List.mem_append.mp hmem with hm | hm
    · by_cases hq : q < 0
      · rw [if_pos hq] at hm
        exact absurd hm (by decide)
      · rw [if_neg hq] at hm
        simp at hm
    · have := mem_natDecimal _ '.' hm
      have h46 : ('.').toNat = 46 := rfl
      omega
  · rw [digitChar_toNat _ hd1]; omega
  · rw [digitChar_toNat _ hd1]; omega
  · rw [digitChar_toNat _ hd2]; omega
  · rw [digitChar_toNat _ hd2]; omega

/-- The concrete rendering `f"{30.0:.2f}" = "30.00"`. -/
theorem format2f_thirty : format2f 30 = "30.00" := by
  unfold format2f
  rw [show (30 : ℚ) * 100 = ((3000 : ℕ) : ℚ) by push_cast; norm_num]
  rw [roundHalfEven_natCast, if_neg (by norm_num : ¬(30 : ℚ) < 0)]
  rfl

/-! ## C7 — numeric formatting rules of the renderer -/

/-- C7: quantities are rendered with `%g` (an integral value below one
million renders as its plain numeral — no decimal point, no exponent, no
trailing zeros); `%.2f` always renders with exactly two digits after the
point; each table row carries the `%g` quantity cell and the `%.2f` price
and amount cells with amount = price × quantity; and the rendered document
carries the `%.2f` total immediately followed by the ruble glyph. -/
theorem c7_numeric_formats :
    (∀ n : ℕ, 0 < n → n < 1000000 →
      formatG (n : ℚ) = natDecimal n ∧
      '.' ∉ (natDecimal n).data ∧ 'e' ∉ (natDecimal n).data) ∧
    (∀ q : ℚ, ∃ pre a b, (format2f q).data = pre ++ '.' :: [a, b] ∧ '.' ∉ pre ∧
      48 ≤ a.toNat ∧ a.toNat ≤ 57 ∧ 48 ≤ b.toNat ∧ b.toNat ≤ 57) ∧
    (∀ (idx : ℕ) (name : String) (q p a : ℚ),
      containsSub (num_cell (formatG q) 6).data (rowHtml idx name q p a).data = true ∧
      containsSub (num_cell (format2f p) 10).data (rowHtml idx name q p a).data = true ∧
      containsSub (num_cell (format2f a) 10).data (rowHtml idx name q p a).data = true) ∧
    (∀ (fs : List (String × JVal)) (idx : ℕ),
      build_row idx (.obj fs) =
        some (rowHtml idx (esc (dgetD fs "name" (.str "")))
          (tryFloat (dgetD fs "quantity" (.num 0)))
          (tryFloat (dgetD fs "price" (.num 0)))
          (tryFloat (dgetD fs "price" (.num 0)) *
            tryFloat (dgetD fs "quantity" (.num 0))))) ∧
    (∀ salon sender sphone logo oid cn ce cp items addr total gen hdr rows,
      build_rows 1 items = some rows →
      containsSub (format2f total ++ " ₽").data
        ((build_invoice_html salon sender sphone logo oid cn ce cp items addr
          total gen hdr).getD "").data = true) := by
  refine ⟨?_, format2f_shape, ?_, fun fs idx => rfl, ?_⟩
  · intro n h0 h6
    refine ⟨formatG_natCast n h0 h6, ?_, ?_⟩
    · intro hmem
      have := mem_natDecimal n '.' hmem
      have h46 : ('.').toNat = 46 := rfl
      omega
    · intro hmem
      have := mem_natDecimal n 'e' hmem
      have h101 : ('e').toNat = 101 := rfl
      omega
  · intro idx name q p a
    refine ⟨?_, ?_, ?_⟩
    · simp only [rowHtml, data_append, List.append_assoc]
      apply containsSub_append_left
      apply containsSub_append_left
      apply containsSub_append_left
      apply containsSub_append_left
      apply containsSub_append_left
      exact containsSub_self_append _ _
    · simp only [rowHtml, data_append, List.append_assoc]
      apply containsSub_append_left
      apply containsSub_append_left
      apply containsSub_append_left
      apply containsSub_append_left
      apply containsSub_append_left
      apply containsSub_append_left
      apply containsSub_append_left
      exact containsSub_self_append _ _
    · simp only [rowHtml, data_append, List.append_assoc]
      apply containsSub_append_left
      apply containsSub_append_left
      apply containsSub_append_left
      apply containsSub_append_left
      apply containsSub_append_left
      apply containsSub_append_left
      apply containsSub_append_left
      apply containsSub_append_left
      apply containsSub_append_left
      exact containsSub_self_append _ _
  · intro salon sender sphone logo oid cn ce cp items addr total gen hdr rows h
    simp only [build_invoice_html, h, Option.getD_some, data_append, List.append_assoc]
    apply containsSub_append_left
    apply containsSub_append_left
    apply containsSub_append_left
    apply containsSub_append_left
    apply containsSub_append_left
    apply containsSub_append_left
    apply containsSub_append_left
    apply containsSub_append_left
    apply containsSub_append_left
    apply containsSub_append_left
    apply containsSub_append_left
    apply containsSub_append_left
    apply containsSub_append_left
    apply containsSub_append_left
    apply containsSub_append_left
    apply containsSub_append_left
    apply containsSub_append_left
    apply containsSub_append_left
    apply containsSub_append_left
    apply containsSub_append_left
    apply containsSub_append_left
    apply containsSub_append_left
    apply containsSub_append_left
    apply containsSub_of_leadsWith
    apply leadsWith_append_left
    apply leadsWith_append
    decide

/-- C7 witness: the spec's example item — quantity 3 renders as `3`, the
line amount cell for price 10 × quantity 3 is present in the row, the
rendered amount string is `30.00`, and a concrete document carries the
`%.2f` total with the ruble glyph. -/
theorem c7_witness :
    formatG ((3 : ℕ) : ℚ) = natDecimal 3 ∧
    natDecimal 3 = "3" ∧
    containsSub (num_cell (format2f (10 * 3)) 10).data
      (rowHtml 1 "Widget" 3 10 (10 * 3)).data = true ∧
    format2f 30 = "30.00" ∧
    containsSub (format2f 30 ++ " ₽").data
      ((build_invoice_html "s" "sn" "sp" "" "o" "c" "e" "p" [] "a" 30 "g" "h").getD
        "").data = true :=
  ⟨(c7_numeric_formats.1 3 (by decide) (by decide)).1,
   rfl,
   (c7_numeric_formats.2.2.1 1 "Widget" 3 10 (10 * 3)).2.2,
   format2f_thirty,
   c7_numeric_formats.2.2.2.2 "s" "sn" "sp" "" "o" "c" "e" "p" [] "a" 30 "g" "h" [] rfl⟩

/-! ## C5 — table body: placeholder row when empty, one row per item -/

/-- C5: for an empty item list the table body is exactly the placeholder row
(one single `<tr>`, spanning all five columns via `colspan="5"`, centered by
the `muted` class), and the rendered document contains it; for a non-empty
list the body is the join of exactly one row per item, the `k`-th row being
the rendering of the `k`-th item with 1-based index `k + 1`. -/
theorem c5_item_rows (items : List JVal) (rs : List String)
    (h : build_rows 1 items = some rs) :
    rs.length = items.length ∧
    (∀ k : ℕ, rs[k]? = (items[k]?).bind (fun it => build_row (1 + k) it)) ∧
    (items = [] → (if rs.isEmpty then placeholderRow else joinNl rs) = placeholderRow) ∧
    countSub ("<tr").data placeholderRow.data = 1 ∧
    containsSub ("colspan=\"5\"").data placeholderRow.data = true ∧
    containsSub ("class=\"muted\"").data placeholderRow.data = true ∧
    (items = [] → ∀ salon sender sphone logo oid cn ce cp addr total gen hdr,
      containsSub placeholderRow.data
        ((build_invoice_html salon sender sphone logo oid cn ce cp items addr
          total gen hdr).getD "").data = true) ∧
    (items ≠ [] → rs ≠ [] ∧
      (if rs.isEmpty then placeholderRow else joinNl rs) = joinNl rs) := by
  have hlen := build_rows_length items 1 rs h
  refine ⟨hlen, build_rows_get items 1 rs h, ?_, by decide, by decide, by decide, ?_, ?_⟩
  · intro hi
    subst hi
    have : rs = [] := List.length_eq_zero.mp hlen
    subst this
    rfl
  · intro hi
    subst hi
    have : rs = [] := List.length_eq_zero.mp hlen
    subst this
    intro salon sender sphone logo oid cn ce cp addr total gen hdr
    simp only [build_invoice_html, build_rows, List.isEmpty_nil, if_true,
      Option.getD_some, data_append, List.append_assoc]
    apply containsSub_append_left
    apply containsSub_append_left
    apply containsSub_append_left
    apply containsSub_append_left
    apply containsSub_append_left
    apply containsSub_append_left
    apply containsSub_append_left
    apply containsSub_append_left
    apply containsSub_append_left
    apply containsSub_append_left
    apply containsSub_append_left
    apply containsSub_append_left
    apply containsSub_append_left
    apply containsSub_append_left
    apply containsSub_append_left
    apply containsSub_append_left
    apply containsSub_append_left
    apply containsSub_append_left
    apply containsSub_append_left
    apply containsSub_append_left
    apply containsSub_append_left
    exact containsSub_self_append _ _
  · intro hi
    have hne : rs ≠ [] := by
      intro hr
      apply hi
      apply List.length_eq_zero.mp
      rw [← hlen, hr]
      rfl
    exact ⟨hne, by simp [List.isEmpty_iff, hne]⟩

/-- C5 witness: the placeholder body holds exactly one row, and a one-item
list builds exactly one row. -/
theorem c5_witness :
    countSub ("<tr").data placeholderRow.data = 1 ∧
    ((build_rows 1 [JVal.obj []]).getD []).length = 1 := by
  refine ⟨(c5_item_rows [] [] rfl).2.2.2.1, ?_⟩
  cases hb : build_rows 1 [JVal.obj []] with
  | none => exact absurd hb (by simp [build_rows, build_row])
  | some rs =>
    have hl := (c5_item_rows [JVal.obj []] rs hb).1
    simpa using hl

/-- `html.escape` of one character never outputs `<`. -/
theorem notMem_escChar_lt (d : Char) : '<' ∉ escChar d := by
  intro hmem
  unfold escChar at hmem
  split_ifs at hmem with h1 h2 h3 h4 h5
  · exact absurd hmem (by decide)
  · exact absurd hmem (by decide)
  · exact absurd hmem (by decide)
  · exact absurd hmem (by decide)
  · exact absurd hmem (by decide)
  · exact h2 (List.mem_singleton.mp hmem).symm

/-- `html.escape` of one character never outputs a double quote. -/
theorem notMem_escChar_quot (d : Char) : Char.ofNat 34 ∉ escChar d := by
  intro hmem
  unfold escChar at hmem
  split_ifs at hmem with h1 h2 h3 h4 h5
  · exact absurd hmem (by decide)
  · exact absurd hmem (by decide)
  · exact absurd hmem (by decide)
  · exact absurd hmem (by decide)
  · exact absurd hmem (by decide)
  · exact h4 (List.mem_singleton.mp hmem).symm

/-- Escaped text never contains a raw `<`. -/
theorem notMem_escList_lt (l : List Char) : '<' ∉ escList l := by
  induction l with
  | nil => simp [escList]
  | cons c rest ih =>
    intro hmem
    rcases List.mem_append.mp hmem with hm | hm
    · exact notMem_escChar_lt c hm
    · exact ih hm

/-- Escaped text never contains a raw double quote. -/
theorem notMem_escList_quot (l : List Char) : Char.ofNat 34 ∉ escList l := by
  induction l with
  | nil => simp [escList]
  | cons c rest ih =>
    intro hmem
    rcases List.mem_append.mp hmem with hm | hm
    · exact notMem_escChar_quot c hm
    · exact ih hm

/-- An entity body at the head survives appending on the right. -/
theorem entityTail_append {l : List Char} (r : List Char)
    (h : entityTail l = true) : entityTail (l ++ r) = true := by
  unfold entityTail at h ⊢
  simp only [Bool.or_eq_true] at h ⊢
  rcases h with ((((h | h) | h) | h) | h) <;>
    · have := leadsWith_append r h
      tauto

/-- `ampOk` is closed under concatenation. -/
theorem ampOk_append (b : List Char) (hb : ampOk b = true) :
    ∀ a : List Char, ampOk a = true → ampOk (a ++ b) = true := by
  intro a
  induction a with
  | nil => intro _; simpa using hb
  | cons c rest ih =>
    intro ha
    simp only [ampOk, Bool.and_eq_true] at ha
    obtain ⟨h1, h2⟩ := ha
    simp only [List.cons_append, ampOk, Bool.and_eq_true]
    refine ⟨?_, ih h2⟩
    by_cases hc : c = '&'
    · rw [if_pos hc] at h1 ⊢
      exact entityTail_append b h1
    · rw [if_neg hc]

/-- `html.escape` of one character is amp-escaped. -/
theorem ampOk_escChar (d : Char) : ampOk (escChar d) = true := by
  unfold escChar
  split_ifs with h1 h2 h3 h4 h5
  · decide
  · decide
  · decide
  · decide
  · decide
  · simp [ampOk, h1]

/-- Escaped text is amp-escaped: every `&` in it starts a complete entity. -/
theorem ampOk_escList (l : List Char) : ampOk (escList l) = true := by
  induction l with
  | nil => rfl
  | cons c rest ih => exact ampOk_append _ ih (escChar c) (ampOk_escChar c)

/-- Character classes of the `%.2f` output: digits, the point, the minus. -/
theorem mem_format2f (q : ℚ) : ∀ c ∈ (format2f q).data,
    (48 ≤ c.toNat ∧ c.toNat ≤ 57) ∨ c.toNat = 46 ∨ c.toNat = 45 := by
  intro c hc
  have hd1 : (roundHalfEven (q * 100)).natAbs % 100 / 10 % 10 < 10 :=
    Nat.mod_lt _ (by norm_num)
  have hd2 : (roundHalfEven (q * 100)).natAbs % 100 % 10 < 10 :=
    Nat.mod_lt _ (by norm_num)
  unfold format2f twoDigits at hc
  rw [data_append, data_append, data_append] at hc
  rcases List.mem_append.mp hc with hc1 | hc1
  · rcases List.mem_append.mp hc1 with hc2 | hc2
    · rcases List.mem_append.mp hc2 with hc3 | hc3
      · by_cases hq : q < 0
        · rw [if_pos hq] at hc3
          have hceq : c = '-' := List.mem_singleton.mp hc3
          subst hceq
          right; right; rfl
        · rw [if_neg hq] at hc3
          exact absurd hc3 (List.not_mem_nil c)
      · exact Or.inl (mem_natDecimal _ c hc3)
    · have hceq : c = '.' := List.mem_singleton.mp hc2
      subst hceq
      right; left; rfl
  · rcases List.mem_cons.mp hc1 with rfl | hc4
    · rw [digitChar_toNat _ hd1]; left; omega
    · have hceq : c = digitChar ((roundHalfEven (q * 100)).natAbs % 100 % 10) :=
        List.mem_singleton.mp hc4
      subst hceq
      rw [digitChar_toNat _ hd2]; left; omega

/-- The `<`/quote count of a row does not depend on the row's contents. -/
theorem rowHtml_count (ch : Char)
    (he : ∀ v, (esc v).data.count ch = 0)
    (hnum : ∀ n, (natDecimal n).data.count ch = 0)
    (idx : ℕ) (name : String) (hname : name.data.count ch = 0) (q p a : ℚ) :
    (rowHtml idx name q p a).data.count ch = (rowHtml 1 "" 0 0 0).data.count ch := by
  have h0 : ("" : String).data.count ch = 0 := rfl
  simp only [rowHtml, num_cell, data_append, List.count_append, he, hnum, hname, h0]

/-- Count of a character across a newline join of rows of equal count. -/
theorem joinNl_count (ch : Char) (hnl : (ch == '\n') = false) :
    ∀ (rows : List String) (K : ℕ), (∀ r ∈ rows, r.data.count ch = K) →
    (joinNl rows).data.count ch = rows.length * K := by
  intro rows
  induction rows with
  | nil => intro K _; simp [joinNl]
  | cons r rest ih =>
    intro K h
    cases rest with
    | nil =>
      have := h r (by simp)
      simpa [joinNl] using this
    | cons r2 rest2 =>
      rw [show joinNl (r :: r2 :: rest2) = r ++ "\n" ++ joinNl (r2 :: rest2) from rfl]
      rw [data_append, data_append, List.count_append, List.count_append]
      rw [h r (by simp)]
      rw [ih K (fun s hs => h s (by simp [hs]))]
      have hne : ch ≠ '\n' := by
        intro hch
        rw [hch] at hnl
        simp at hnl
      have hne2 : '\n' ≠ ch := fun hh => hne hh.symm
      have hn : (("\n" : String)).data.count ch = 0 := by
        show List.count ch ['\n'] = 0
        simp [List.count_cons, List.count_nil, hne, hne2]
      rw [hn]
      simp only [List.length_cons]
      ring

/-- Every row accumulated by `build_rows` has the content-independent count. -/
theorem build_rows_count (ch : Char)
    (he : ∀ v, (esc v).data.count ch = 0)
    (hnum : ∀ n, (natDecimal n).data.count ch = 0) :
    ∀ (items : List JVal) (i : ℕ) (rows : List String),
    build_rows i items = some rows →
    ∀ r ∈ rows, r.data.count ch = (rowHtml 1 "" 0 0 0).data.count ch := by
  intro items
  induction items with
  | nil =>
    intro i rows h r hr
    simp only [build_rows, Option.some.injEq] at h
    rw [← h] at hr
    simp at hr
  | cons it rest ih =>
    intro i rows h r hr
    simp only [build_rows] at h
    cases hrow : build_row i it with
    | none => rw [hrow] at h; exact absurd h (by simp)
    | some row =>
      rw [hrow] at h
      cases hrem : build_rows (i + 1) rest with
      | none => rw [hrem] at h; exact absurd h (by simp)
      | some rows2 =>
        rw [hrem] at h
        simp only [Option.some.injEq] at h
        rw [← h] at hr
        rcases List.mem_cons.mp hr with rfl | hr2
        · cases it with
          | obj fs =>
            simp only [build_row, Option.some.injEq] at hrow
            rw [← hrow]
            exact rowHtml_count ch he hnum i _ (he _) _ _ _
          | null => simp [build_row] at hrow
          | bool b => simp [build_row] at hrow
          | num n => simp [build_row] at hrow
          | str s => simp [build_row] at hrow
          | arr xs => simp [build_row] at hrow
        · exact ih (i + 1) rows2 hrem r hr2

/-- The per-character count of the whole rendered document is independent of
the user-supplied text fields, for characters that escaping removes. -/
theorem doc_count_eq (ch : Char) (hnl : (ch == '\n') = false)
    (he : ∀ v, (esc v).data.count ch = 0)
    (hnum : ∀ n, (natDecimal n).data.count ch = 0)
    (hf : ∀ q, (format2f q).data.count ch = 0)
    (salon sender sphone logo oid cn ce cp : String) (items : List JVal)
    (addr : String) (total : ℚ) (gen hdr : String) (rows rows2 : List String)
    (h : build_rows 1 items = some rows)
    (h2 : build_rows 1 (blankItems items.length) = some rows2) :
    ((build_invoice_html salon sender sphone logo oid cn ce cp items addr total
      gen hdr).getD "").data.count ch =
    ((build_invoice_html "" "" "" logo "" "" "" "" (blankItems items.length) ""
      0 "" "").getD "").data.count ch := by
  have hlen1 := build_rows_length items 1 rows h
  have hlen2 := build_rows_length _ 1 rows2 h2
  have hlenb : (blankItems items.length).length = items.length :=
    List.length_replicate _ _
  have hK1 := build_rows_count ch he hnum items 1 rows h
  have hK2 := build_rows_count ch he hnum _ 1 rows2 h2
  have htb : (if rows.isEmpty then placeholderRow else joinNl rows).data.count ch =
      (if rows2.isEmpty then placeholderRow else joinNl rows2).data.count ch := by
    by_cases hi : items = []
    · have hr1 : rows = [] := by
        apply List.length_eq_zero.mp
        rw [hlen1, hi]
        rfl
      have hr2 : rows2 = [] := by
        apply List.length_eq_zero.mp
        rw [hlen2, hlenb, hi]
        rfl
      rw [hr1, hr2]
    · have hr1 : ¬rows.isEmpty = true := by
        rw [List.isEmpty_iff]
        intro hr
        exact hi (List.length_eq_zero.mp (by rw [← hlen1, hr]; rfl))
      have hr2 : ¬rows2.isEmpty = true := by
        rw [List.isEmpty_iff]
        intro hr
        apply hi
        apply List.length_eq_zero.mp
        rw [← hlenb, ← hlen2, hr]
        rfl
      rw [if_neg hr1, if_neg hr2]
      rw [joinNl_count ch hnl rows _ hK1, joinNl_count ch hnl rows2 _ hK2]
      rw [hlen1, hlen2, hlenb]
  simp only [build_invoice_html, h, h2, Option.getD_some, data_append,
    List.count_append, he, hnum, hf]
  omega

/-! ## C3 — user text is escaped before reaching the markup -/

/-- C3: every interpolated user field passes through `esc`, whose output
never contains a raw `<` or `"` and in which every `&` starts a complete
escape entity; consequently the number of `<` and of `"` characters in the
rendered document does not depend on the content of any user-supplied text
field (it equals the count for a blank invoice of the same shape). -/
theorem c3_escaping :
    (∀ v : JVal, '<' ∉ (esc v).data ∧ Char.ofNat 34 ∉ (esc v).data ∧
      ampOk (esc v).data = true) ∧
    (∀ (salon sender sphone logo oid cn ce cp : String) (items : List JVal)
      (addr : String) (total : ℚ) (gen hdr : String) (rows rows2 : List String),
      build_rows 1 items = some rows →
      build_rows 1 (blankItems items.length) = some rows2 →
      ((build_invoice_html salon sender sphone logo oid cn ce cp items addr total
        gen hdr).getD "").data.count '<' =
      ((build_invoice_html "" "" "" logo "" "" "" "" (blankItems items.length) ""
        0 "" "").getD "").data.count '<' ∧
      ((build_invoice_html salon sender sphone logo oid cn ce cp items addr total
        gen hdr).getD "").data.count (Char.ofNat 34) =
      ((build_invoice_html "" "" "" logo "" "" "" "" (blankItems items.length) ""
        0 "" "").getD "").data.count (Char.ofNat 34)) := by
  have he_lt : ∀ v : JVal, (esc v).data.count '<' = 0 :=
    fun v => List.count_eq_zero.mpr (notMem_escList_lt _)
  have he_q : ∀ v : JVal, (esc v).data.count (Char.ofNat 34) = 0 :=
    fun v => List.count_eq_zero.mpr (notMem_escList_quot _)
  have hnum_lt : ∀ n : ℕ, (natDecimal n).data.count '<' = 0 := by
    intro n
    apply List.count_eq_zero.mpr
    intro hmem
    have := mem_natDecimal n '<' hmem
    have h60 : ('<').toNat = 60 := rfl
    omega
  have hnum_q : ∀ n : ℕ, (natDecimal n).data.count (Char.ofNat 34) = 0 := by
    intro n
    apply List.count_eq_zero.mpr
    intro hmem
    have := mem_natDecimal n (Char.ofNat 34) hmem
    have h34 : (Char.ofNat 34).toNat = 34 := rfl
    omega
  have hf_lt : ∀ q : ℚ, (format2f q).data.count '<' = 0 := by
    intro q
    apply List.count_eq_zero.mpr
    intro hmem
    have := mem_format2f q '<' hmem
    have h60 : ('<').toNat = 60 := rfl
    omega
  have hf_q : ∀ q : ℚ, (format2f q).data.count (Char.ofNat 34) = 0 := by
    intro q
    apply List.count_eq_zero.mpr
    intro hmem
    have := mem_format2f q (Char.ofNat 34) hmem
    have h34 : (Char.ofNat 34).toNat = 34 := rfl
    omega
  refine ⟨fun v => ⟨notMem_escList_lt _, notMem_escList_quot _, ampOk_escList _⟩, ?_⟩
  intro salon sender sphone logo oid cn ce cp items addr total gen hdr rows rows2 h h2
  exact ⟨doc_count_eq '<' (by decide) he_lt hnum_lt hf_lt salon sender sphone logo
      oid cn ce cp items addr total gen hdr rows rows2 h h2,
    doc_count_eq (Char.ofNat 34) (by decide) he_q hnum_q hf_q salon sender sphone
      logo oid cn ce cp items addr total gen hdr rows rows2 h h2⟩

/-- C3 witness: instantiated at a concrete invoice whose fields carry markup
characters, against the blank invoice of the same shape. -/
theorem c3_witness :
    '<' ∉ (esc (JVal.str "<b>&\"hi\"</b>")).data ∧
    ((build_invoice_html "<Salon>" "SN" "SP" "" "O<1>" "C" "E" "P" [] "a&b" 0 "g"
      "h\"x\"").getD "").data.count '<' =
    ((build_invoice_html "" "" "" "" "" "" "" "" (blankItems 0) "" 0 "" "").getD
      "").data.count '<' :=
  ⟨(c3_escaping.1 (JVal.str "<b>&\"hi\"</b>")).1,
   (c3_escaping.2 "<Salon>" "SN" "SP" "" "O<1>" "C" "E" "P" [] "a&b" 0 "g" "h\"x\""
     [] [] rfl rfl).1⟩

/-! ## C8 — remote non-success surfaces as `{ok: false, error}` -/

/-- C8: when the document pipeline succeeds but the remote messaging
endpoint reports non-success, the route answers 500 with
`{ok: false, error}` whose error text is exactly `send_pdf`'s raised message
`"Telegram error {status}: {text}"`, which contains the remote status code
and the response body; no success field is reported. -/
theorem c8_delivery_error (cfg : Config) (tok : Option String)
    (pdfE : String → Except String String) (tg : TgResp)
    (payload : List (String × JVal)) (nd ndt : String)
    (pdf_bytes filename caption order_id : String) (effs : List Effect)
    (hauth : authorized tok cfg.internalApiToken = true)
    (hchat : ¬ cfg.adminChatId.getD "" = "")
    (hbot : ¬ cfg.botToken.getD "" = "")
    (hbuild : _build_invoice_pdf cfg pdfE payload nd ndt =
      (.ok (pdf_bytes, filename, caption, order_id), effs))
    (htg : tg.ok = false) :
    send_invoice_route cfg tok pdfE tg payload nd ndt =
      ((500, .obj [("ok", .bool false),
        ("error", .str ("Telegram error " ++ natDecimal tg.status ++ ": " ++ tg.text))]),
       effs ++ [.sendDocument (cfg.adminChatId.getD "") filename caption]) ∧
    containsSub (natDecimal tg.status).data
      ("Telegram error " ++ natDecimal tg.status ++ ": " ++ tg.text).data = true ∧
    containsSub tg.text.data
      ("Telegram error " ++ natDecimal tg.status ++ ": " ++ tg.text).data = true := by
  refine ⟨?_, ?_, ?_⟩
  · simp only [send_invoice_route, hauth, if_true, if_neg hchat, hbuild,
      send_pdf, if_neg hbot, htg, if_neg hbot, Bool.false_eq_true, if_false]
  · rw [data_append, data_append, data_append]
    rw [List.append_assoc, List.append_assoc]
    exact containsSub_append_left _
      (containsSub_self_append _ _)
  · rw [data_append]
    have : ("Telegram error " ++ natDecimal tg.status ++ ": ").data ++ tg.text.data =
        ("Telegram error " ++ natDecimal tg.status ++ ": ").data ++ (tg.text.data ++ []) := by
      rw [List.append_nil]
    rw [this]
    exact containsSub_append_left _ (containsSub_self_append _ _)

/-- C8 witness: a concrete request whose delivery is answered with status
502 and body `"Bad Gateway"`. -/
theorem c8_witness :
    (send_invoice_route ⟨some "bt", some "chat", some "secret", "SN", "SP", false⟩
      (some "secret") (fun _ => .ok "BYTES") ⟨false, 502, "Bad Gateway", .null⟩
      [] "d" "t").1 =
      (500, .obj [("ok", .bool false), ("error", .str "Telegram error 502: Bad Gateway")]) ∧
    containsSub ("502").data ("Telegram error 502: Bad Gateway").data = true ∧
    containsSub ("Bad Gateway").data ("Telegram error 502: Bad Gateway").data = true := by
  have hok : (_build_invoice_pdf ⟨some "bt", some "chat", some "secret", "SN", "SP", false⟩
      (fun _ => .ok "BYTES") [] "d" "t").1.isOk = true := rfl
  match hb : _build_invoice_pdf ⟨some "bt", some "chat", some "secret", "SN", "SP", false⟩
      (fun _ => .ok "BYTES") [] "d" "t" with
  | (.error e, effs) =>
    rw [hb] at hok
    exact absurd hok (by simp [Except.isOk, Except.toBool])
  | (.ok (b, fn, cap, oid), effs) =>
    have h := c8_delivery_error ⟨some "bt", some "chat", some "secret", "SN", "SP", false⟩
      (some "secret") (fun _ => .ok "BYTES") ⟨false, 502, "Bad Gateway", .null⟩
      [] "d" "t" b fn cap oid effs rfl (by decide) (by decide) hb rfl
    refine ⟨?_, ?_, ?_⟩
    · have hs : ("Telegram error " ++ natDecimal 502 ++ ": " ++ "Bad Gateway") =
          "Telegram error 502: Bad Gateway" := rfl
      rw [congrArg Prod.fst h.1]
      exact congrArg (fun s =>
        ((500 : ℕ), JVal.obj [("ok", JVal.bool false), ("error", JVal.str s)])) hs
    · exact h.2.1
    · exact h.2.2

/-- Occurrences survive appending on the right. -/
theorem containsSub_append_right {p l : List Char} (r : List Char)
    (h : containsSub p l = true) : containsSub p (l ++ r) = true := by
  induction l with
  | nil =>
    cases p with
    | nil => exact containsSub_of_leadsWith rfl
    | cons x xs => exact absurd h (by simp [containsSub])
  | cons c cs ih =>
    simp only [containsSub, Bool.or_eq_true] at h
    rcases h with h | h
    · exact containsSub_of_leadsWith (by simpa using leadsWith_append r h)
    · simp only [List.cons_append, containsSub, Bool.or_eq_true]
      exact Or.inr (ih h)

end Blossom
